import Mathlib

/-!
Shallow embedding of the infra-gen generation engine: the domain model
(`pkg/types`), the validation substrate, the Docker Compose renderer, the
Ansible renderer, and the preset manager, together with theorems checking
the specification's claims against this embedding.

Go string maps (`map[string]string`, `map[string]interface{}`) are embedded
as association lists; Go's unspecified map iteration order is modelled by
relating configurations whose association lists are permutations of each
other (see `ConfigEquiv`).  The two clock reads performed by
`CreateProjectFromPreset` are passed in as explicit arguments.
-/

namespace InfraGen

/-- Concatenation of a list of strings in order; models sequential
`strings.Builder.WriteString` calls. -/
def strConcat : List String → String
  | [] => ""
  | s :: rest => s ++ strConcat rest

/-- Join a list of strings with a separator; models `strings.Join`. -/
def strJoinSep (sep : String) : List String → String
  | [] => ""
  | [s] => s
  | s :: t :: rest => s ++ sep ++ strJoinSep sep (t :: rest)

/-- Containment of the character sequence `pat` inside a character
sequence; worker for `containsSubstr`. -/
def charsContains (pat : List Char) : List Char → Bool
  | [] => pat.isEmpty
  | c :: t => pat.isPrefixOf (c :: t) || charsContains pat t

/-- Substring test on strings; models `strings.Contains`. -/
def containsSubstr (s pat : String) : Bool :=
  charsContains pat.data s.data

/-- Character-wise uppercasing; models `strings.ToUpper` on the ASCII data
the program handles. -/
def strToUpper (s : String) : String := ⟨s.data.map Char.toUpper⟩

/-- Character-wise lowercasing; models `strings.ToLower` on the ASCII data
the program handles. -/
def strToLower (s : String) : String := ⟨s.data.map Char.toLower⟩

/-- Dynamic (interface) values as the Go code actually stores them: strings,
ints, string slices and booleans. -/
inductive GoVal where
  | str (s : String)
  | int (i : Int)
  | strList (l : List String)
  | bool (b : Bool)
  deriving DecidableEq, Repr

/-- Infrastructure target identifiers (`types.Target`). -/
inductive Target where
  | docker
  | ansible
  | terraform
  deriving DecidableEq, Repr

/-- Port mapping (`types.PortConfig`). -/
structure PortConfig where
  host : Int
  container : Int
  protocol : String
  deriving DecidableEq, Repr

/-- Volume mapping (`types.VolumeConfig`). -/
structure VolumeConfig where
  source : String
  target : String
  readOnly : Bool
  type : String
  deriving DecidableEq, Repr

/-- A single service (`types.ServiceConfig`); the environment map is
embedded as an association list. -/
structure ServiceConfig where
  name : String
  type : String
  image : String
  ports : List PortConfig
  volumes : List VolumeConfig
  environment : List (String × String)
  dependsOn : List String
  enabled : Bool
  deriving DecidableEq, Repr

/-- Project configuration (`types.ProjectConfig`); timestamps are modelled
as natural-number clock readings. -/
structure ProjectConfig where
  name : String
  type : String
  description : String
  version : String
  environment : String
  services : List ServiceConfig
  vars : List (String × String)
  createdAt : Nat
  updatedAt : Nat
  deriving DecidableEq, Repr

/-- One field-level validation failure (`types.ValidationError`). -/
structure ValidationError where
  field : String
  message : String
  value : GoVal
  deriving DecidableEq, Repr

/-- One rendered artifact (`types.GeneratedFile`). -/
structure GeneratedFile where
  path : String
  content : String
  type : Target
  encoding : String
  deriving DecidableEq, Repr

/-- A preset service (`types.PresetService`). -/
structure PresetService where
  name : String
  type : String
  description : String
  image : String
  ports : List PortConfig
  volumes : List VolumeConfig
  environment : List (String × String)
  optional : Bool
  deriving DecidableEq, Repr

/-- A catalog preset (`types.Preset`). -/
structure Preset where
  id : String
  name : String
  description : String
  category : String
  services : List PresetService
  vars : List (String × String)
  tags : List String
  deriving DecidableEq, Repr

end InfraGen

namespace InfraGen.Docker

open InfraGen

/-- Per-service validation loop of the Docker generator's `Validate`
(`for i, service := range config.Services`). -/
def serviceErrors : Nat → List ServiceConfig → List ValidationError
  | _, [] => []
  | i, s :: rest =>
    (if s.name = "" then
      [⟨"services[" ++ toString i ++ "].name", "service name is required", GoVal.str s.name⟩]
     else [])
    ++ (if s.type = "" then
      [⟨"services[" ++ toString i ++ "].type", "service type is required", GoVal.str s.type⟩]
     else [])
    ++ serviceErrors (i + 1) rest

/-- Docker generator's `Validate`: accumulates all violations, returns
`none` on success and `some errors` on failure. -/
def Validate (config : ProjectConfig) : Option (List ValidationError) :=
  let errs : List ValidationError :=
    (if config.name = "" then
      [⟨"name", "project name is required", GoVal.str config.name⟩]
     else [])
    ++ (if config.services.length = 0 then
      [⟨"services", "at least one service is required", GoVal.int (Int.ofNat config.services.length)⟩]
     else [])
    ++ serviceErrors 0 config.services
  if errs.isEmpty then none else some errs

end InfraGen.Docker

namespace InfraGen.Docker

open InfraGen

/-- One rendered port line of a service block (`generateComposeYAML`,
ports loop). -/
def portLine (p : PortConfig) : String :=
  "      - \"" ++ (if p.host > 0 then toString p.host ++ ":" else "")
    ++ toString p.container ++ "\""
    ++ (if p.protocol = "" then "" else " # " ++ p.protocol) ++ "\n"

/-- One rendered volume line of a service block (`generateComposeYAML`,
volumes loop). -/
def volumeLine (v : VolumeConfig) : String :=
  "      - " ++ v.source ++ ":" ++ v.target ++ (if v.readOnly then ":ro" else "") ++ "\n"

/-- One rendered environment line of a service block. -/
def envLine (kv : String × String) : String :=
  "      " ++ kv.1 ++ ": " ++ kv.2 ++ "\n"

/-- One rendered dependency line of a service block. -/
def depLine (d : String) : String :=
  "      - " ++ d ++ "\n"

/-- The rendered block for one enabled service (`generateComposeYAML`,
body of the services loop). -/
def serviceBlock (s : ServiceConfig) : String :=
  "  " ++ s.name ++ ":\n"
  ++ (if s.image = "" then "" else "    image: " ++ s.image ++ "\n")
  ++ (if s.ports.length > 0 then "    ports:\n" ++ strConcat (s.ports.map portLine) else "")
  ++ (if s.volumes.length > 0 then "    volumes:\n" ++ strConcat (s.volumes.map volumeLine) else "")
  ++ (if s.environment.length > 0 then
        "    environment:\n" ++ strConcat (s.environment.map envLine) else "")
  ++ (if s.dependsOn.length > 0 then
        "    depends_on:\n" ++ strConcat (s.dependsOn.map depLine) else "")
  ++ "\n"

/-- The services part of the manifest: disabled services are skipped
(`if !service.Enabled { continue }`). -/
def servicesSection (services : List ServiceConfig) : String :=
  strConcat (services.map fun s => if s.enabled then serviceBlock s else "")

/-- The `hasVolumes` scan of `generateComposeYAML`: true when some service
declares at least one volume of any kind. -/
def hasVolumes (services : List ServiceConfig) : Bool :=
  services.any fun s => s.volumes.length > 0

/-- The entries written under the top-level `volumes:` header: one per
volume declaration whose kind tag is `"volume"`. -/
def namedVolumeEntries (services : List ServiceConfig) : String :=
  strConcat (services.map fun s =>
    strConcat (s.volumes.map fun v =>
      if v.type = "volume" then "  " ++ v.source ++ ":\n" else ""))

/-- The trailing top-level `volumes:` section of `generateComposeYAML`. -/
def volumesSection (services : List ServiceConfig) : String :=
  if hasVolumes services then "volumes:\n" ++ namedVolumeEntries services else ""

/-- Docker Compose manifest rendering (`generateComposeYAML`); the Go
function's error result is always nil. -/
def generateComposeYAML (config : ProjectConfig) : String :=
  "services:\n" ++ servicesSection config.services ++ volumesSection config.services

/-- Keys treated as external ("sensitive") by `generateEnvFile`: the
uppercased key contains PASSWORD, SECRET, KEY or TOKEN. -/
def isExternalKey (key : String) : Bool :=
  containsSubstr (strToUpper key) "PASSWORD" || containsSubstr (strToUpper key) "SECRET"
    || containsSubstr (strToUpper key) "KEY" || containsSubstr (strToUpper key) "TOKEN"

/-- The `envVars` slice built by `generateEnvFile`: all project-level
variables, then the qualifying service environment entries renamed with the
uppercased service name as prefix. -/
def envVars (config : ProjectConfig) : List String :=
  config.vars.map (fun kv => kv.1 ++ "=" ++ kv.2)
  ++ config.services.flatMap fun s =>
      (s.environment.filter fun kv => isExternalKey kv.1).map fun kv =>
        strToUpper s.name ++ "_" ++ kv.1 ++ "=" ++ kv.2

/-- Environment file rendering (`generateEnvFile`): empty string when no
variable qualifies, else the joined lines with a trailing newline. -/
def generateEnvFile (config : ProjectConfig) : String :=
  if (envVars config).length = 0 then "" else strJoinSep "\n" (envVars config) ++ "\n"

/-- Docker generator's `Generate`: re-validates, then emits
`docker-compose.yml` and, when nonempty, `.env`. -/
def Generate (config : ProjectConfig) : Except (List ValidationError) (List GeneratedFile) :=
  match Validate config with
  | some errs => Except.error errs
  | none =>
    let yamlContent := generateComposeYAML config
    let envContent := generateEnvFile config
    let files : List GeneratedFile :=
      [⟨"docker-compose.yml", yamlContent, Target.docker, "utf-8"⟩]
    let files := if envContent = "" then files
      else files ++ [⟨".env", envContent, Target.docker, "utf-8"⟩]
    Except.ok files

end InfraGen.Docker

namespace InfraGen.Ansible

open InfraGen

/-- Per-service validation loop of the Ansible generator's `Validate`. -/
def serviceErrors : Nat → List ServiceConfig → List ValidationError
  | _, [] => []
  | i, s :: rest =>
    (if s.name = "" then
      [⟨"services[" ++ toString i ++ "].name", "service name is required", GoVal.str s.name⟩]
     else [])
    ++ (if s.type = "" then
      [⟨"services[" ++ toString i ++ "].type", "service type is required", GoVal.str s.type⟩]
     else [])
    ++ serviceErrors (i + 1) rest

/-- Ansible generator's `Validate`: accumulates all violations, returns
`none` on success and `some errors` on failure. -/
def Validate (config : ProjectConfig) : Option (List ValidationError) :=
  let errs : List ValidationError :=
    (if config.name = "" then
      [⟨"name", "project name is required", GoVal.str config.name⟩]
     else [])
    ++ (if config.services.length = 0 then
      [⟨"services", "at least one service is required", GoVal.int (Int.ofNat config.services.length)⟩]
     else [])
    ++ serviceErrors 0 config.services
  if errs.isEmpty then none else some errs

/-- An Ansible task as `generateTasks` builds it.  The Go struct's
`WithItems` and `Vars` fields are never assigned by the generator and are
omitted here. -/
structure AnsibleTask where
  name : String
  module : String
  package : String
  state : String
  deriving DecidableEq, Repr

/-- Assignment into a Go `map[string]interface{}`: replaces the value of an
existing key, otherwise adds the binding. -/
def goInsert (m : List (String × GoVal)) (k : String) (v : GoVal) : List (String × GoVal) :=
  if m.any fun kv => kv.1 == k then
    m.map fun kv => if kv.1 == k then (k, v) else kv
  else m ++ [(k, v)]

/-- Hyphens replaced by underscores
(`strings.ReplaceAll(service.Name, "-", "_")`). -/
def replaceDash (s : String) : String :=
  String.map (fun c => if c = '-' then '_' else c) s

/-- Port strings for playbook variables (`extractPorts`). -/
def extractPorts (ports : List PortConfig) : List String :=
  ports.map fun p =>
    if p.host > 0 then toString p.host ++ ":" ++ toString p.container
    else toString p.container

/-- Volume strings for playbook variables (`extractVolumes`). -/
def extractVolumes (volumes : List VolumeConfig) : List String :=
  volumes.map fun v => v.source ++ ":" ++ v.target

/-- Playbook variables (`generateVars`): project variables, then four
derived entries per service.  The Go function builds an internal
`map[string]interface{}`; this association list records its insertions (a
replacing write per existing key) in one fixed order, while the Go map's
range order in `generatePlaybook` is unspecified — no theorem below relies
on the order of this list. -/
def generateVars (config : ProjectConfig) : List (String × GoVal) :=
  let vars := config.vars.foldl (fun acc kv => goInsert acc kv.1 (GoVal.str kv.2)) []
  config.services.foldl (fun acc s =>
    let pre := replaceDash s.name
    let acc := goInsert acc (pre ++ "_image") (GoVal.str s.image)
    let acc := goInsert acc (pre ++ "_ports") (GoVal.strList (extractPorts s.ports))
    let acc := goInsert acc (pre ++ "_volumes") (GoVal.strList (extractVolumes s.volumes))
    goInsert acc (pre ++ "_enabled") (GoVal.bool s.enabled)) vars

/-- Playbook tasks (`generateTasks`): a fixed three-task prefix, per-enabled
service tasks, and a fixed two-task suffix. -/
def generateTasks (config : ProjectConfig) : List AnsibleTask :=
  [⟨"Update package cache", "apt", "apt", "present"⟩,
   ⟨"Install Docker", "package", "docker.io", "present"⟩,
   ⟨"Start and enable Docker service", "systemd", "docker", "started"⟩]
  ++ (config.services.flatMap fun s =>
      if s.enabled then
        (s.volumes.flatMap fun v =>
          if (v.source != "") && (!v.source.startsWith "/") then
            [⟨"Create directory for " ++ v.source ++ " volume", "file", v.source, "directory"⟩]
          else [])
        ++ (if s.image != "" then
            [⟨"Pull " ++ s.name ++ " Docker image", "docker_image", s.image, "present"⟩]
          else [])
      else [])
  ++ [⟨"Create docker-compose.yml", "file",
        "/opt/\x7b\x7b project_name \x7d\x7d/docker-compose.yml", "directory"⟩,
      ⟨"Deploy services with Docker Compose", "docker_compose",
        "/opt/\x7b\x7b project_name \x7d\x7d", "present"⟩]

/-- Rendering of one Go interface value with `fmt.Sprintf("%v", value)`
for the value shapes the playbook variables hold. -/
def goFormat : GoVal → String
  | GoVal.str s => s
  | GoVal.int i => toString i
  | GoVal.strList l => "[" ++ strJoinSep " " l ++ "]"
  | GoVal.bool b => if b then "true" else "false"

/-- Rendering of one task in the playbook (`generatePlaybook`, tasks loop). -/
def taskBlock (t : AnsibleTask) : String :=
  "    - name: " ++ t.name ++ "\n"
  ++ (if t.module = "" then "" else
      "      " ++ t.module ++ ":\n"
      ++ (if t.package = "" then "" else "        name: " ++ t.package ++ "\n")
      ++ (if t.state = "" then "" else "        state: " ++ t.state ++ "\n"))

/-- Playbook rendering (`generatePlaybook`); the Go function's error result
is always nil.  The `vars:` block ranges over the internal `generateVars`
map, whose Go iteration order is unspecified; this definition renders one
admissible order (the insertion order recorded by `generateVars`), so the
playbook text is one admissible output, not a byte-deterministic one — no
theorem below asserts cross-invocation byte equality for it. -/
def generatePlaybook (config : ProjectConfig) : String :=
  "---\n- hosts: all\n  become: true\n  name: Deploy " ++ config.name ++ "\n"
  ++ (let vars := generateVars config
      if vars.length > 0 then
        "  vars:\n"
        ++ strConcat (vars.map fun kv => "    " ++ kv.1 ++ ": " ++ goFormat kv.2 ++ "\n")
      else "")
  ++ "  tasks:\n" ++ strConcat ((generateTasks config).map taskBlock)

/-- One inventory child group: its placeholder hosts with their host
variables. -/
structure InventoryGroup where
  hosts : List (String × List (String × String))
  deriving DecidableEq, Repr

/-- The placeholder web-servers group added by `generateInventory`. -/
def webserversGroup : InventoryGroup :=
  ⟨[("webserver1",
     [("ansible_host", "\x7b\x7b webserver_ip | default(\x27127.0.0.1\x27) \x7d\x7d"),
      ("ansible_user", "\x7b\x7b ansible_user | default(\x27ubuntu\x27) \x7d\x7d")])]⟩

/-- The placeholder databases group added by `generateInventory`. -/
def databasesGroup : InventoryGroup :=
  ⟨[("database1",
     [("ansible_host", "\x7b\x7b database_ip | default(\x27127.0.0.1\x27) \x7d\x7d"),
      ("ansible_user", "\x7b\x7b ansible_user | default(\x27ubuntu\x27) \x7d\x7d")])]⟩

/-- Case-insensitive substring scan over service types (`hasServiceType`). -/
def hasServiceType (services : List ServiceConfig) (ts : List String) : Bool :=
  services.any fun s => ts.any fun t => containsSubstr (strToLower s.type) (strToLower t)

/-- The child groups of the generated inventory: each group is present
exactly when its `hasServiceType` condition fires. -/
def generateInventoryChildren (config : ProjectConfig) : List (String × InventoryGroup) :=
  (if hasServiceType config.services ["web", "frontend", "nginx"] then
    [("webservers", webserversGroup)] else [])
  ++ (if hasServiceType config.services ["database", "postgres", "mysql", "mongo"] then
    [("databases", databasesGroup)] else [])

/-- The global inventory variables: project name and environment, with every
project-level variable merged in (`inventory.All.Vars`). -/
def generateInventoryVars (config : ProjectConfig) : List (String × GoVal) :=
  config.vars.foldl (fun acc kv => goInsert acc kv.1 (GoVal.str kv.2))
    [("project_name", GoVal.str config.name), ("environment", GoVal.str config.environment)]

/-- Rendering of one inventory child group. -/
def renderGroup (g : String × InventoryGroup) : String :=
  "    " ++ g.1 ++ ":\n      hosts:\n"
  ++ strConcat (g.2.hosts.map fun h =>
      "        " ++ h.1 ++ ":\n"
      ++ strConcat (h.2.map fun kv => "          " ++ kv.1 ++ ": " ++ kv.2 ++ "\n"))

/-- Inventory rendering.  The Go code serializes the inventory structure
with the external `yaml.v3` library (not part of this repository); this
definition is a deterministic serialization of the same structure, whose
group and variable content is given by `generateInventoryChildren` and
`generateInventoryVars`. -/
def generateInventory (config : ProjectConfig) : String :=
  "all:\n  children:\n"
  ++ strConcat ((generateInventoryChildren config).map renderGroup)
  ++ "  vars:\n"
  ++ strConcat ((generateInventoryVars config).map fun kv =>
      "    " ++ kv.1 ++ ": " ++ goFormat kv.2 ++ "\n")

/-- Requirements rendering (`generateRequirements`): currently always
empty. -/
def generateRequirements (_config : ProjectConfig) : String := ""

/-- Ansible generator's `Generate`: re-validates, then emits
`playbook.yml`, `inventory.yml` and, when nonempty, `requirements.yml`. -/
def Generate (config : ProjectConfig) : Except (List ValidationError) (List GeneratedFile) :=
  match Validate config with
  | some errs => Except.error errs
  | none =>
    let files : List GeneratedFile :=
      [⟨"playbook.yml", generatePlaybook config, Target.ansible, "utf-8"⟩,
       ⟨"inventory.yml", generateInventory config, Target.ansible, "utf-8"⟩]
    let req := generateRequirements config
    let files := if req = "" then files
      else files ++ [⟨"requirements.yml", req, Target.ansible, "utf-8"⟩]
    Except.ok files

end InfraGen.Ansible

namespace InfraGen.Presets

open InfraGen

/-- Per-service validation loop of the preset manager's `ValidateProject`. -/
def serviceErrors : Nat → List ServiceConfig → List ValidationError
  | _, [] => []
  | i, s :: rest =>
    (if s.name = "" then
      [⟨"services[" ++ toString i ++ "].name", "service name is required", GoVal.str s.name⟩]
     else [])
    ++ (if s.type = "" then
      [⟨"services[" ++ toString i ++ "].type", "service type is required", GoVal.str s.type⟩]
     else [])
    ++ serviceErrors (i + 1) rest

/-- Duplicate-name scan of `ValidateProject`: walks the services keeping the
set of names already seen, and reports every repeated occurrence. -/
def dupErrors (seen : List String) : List ServiceConfig → List ValidationError
  | [] => []
  | s :: rest =>
    (if seen.contains s.name then
      [⟨"services", "duplicate service name: " ++ s.name, GoVal.str s.name⟩]
     else [])
    ++ dupErrors (s.name :: seen) rest

/-- Whole-project validation (`Manager.ValidateProject`). -/
def validateProject (config : ProjectConfig) : Option (List ValidationError) :=
  let errs : List ValidationError :=
    (if config.name = "" then
      [⟨"name", "project name is required", GoVal.str config.name⟩]
     else [])
    ++ (if config.type = "" then
      [⟨"type", "project type is required", GoVal.str config.type⟩]
     else [])
    ++ (if config.services.length = 0 then
      [⟨"services", "at least one service is required", GoVal.int (Int.ofNat config.services.length)⟩]
     else [])
    ++ serviceErrors 0 config.services
    ++ dupErrors [] config.services
  if errs.isEmpty then none else some errs

/-- The hardcoded preset template data (`Manager.loadPresetTemplateData`);
its Go error result is always nil. -/
def loadPresetTemplateData (presetID : String) : Preset :=
  match presetID with
  | "web-app" =>
    { id := "", name := "", description := "", category := "", vars := [], tags := [],
      services := [
        ⟨"frontend", "frontend", "Frontend web application", "nginx:alpine",
          [⟨0, 80, "tcp"⟩], [], [("REACT_APP_API_URL", "http://api:8080")], false⟩,
        ⟨"api", "api", "Backend API server", "node:18-alpine",
          [⟨0, 8080, "tcp"⟩], [], [("NODE_ENV", "development"), ("DB_HOST", "database")], false⟩,
        ⟨"database", "database", "PostgreSQL database", "postgres:15",
          [⟨0, 5432, "tcp"⟩], [⟨"db_data", "/var/lib/postgresql/data", false, "volume"⟩],
          [("POSTGRES_DB", "webapp"), ("POSTGRES_USER", "admin")], false⟩] }
  | "microservice" =>
    { id := "", name := "", description := "", category := "", vars := [], tags := [],
      services := [
        ⟨"api-gateway", "gateway", "API Gateway", "nginx:alpine",
          [⟨0, 80, "tcp"⟩], [], [("UPSTREAM_SERVICE1", "service1:8081")], false⟩,
        ⟨"service1", "microservice", "First microservice", "node:18-alpine",
          [⟨0, 8081, "tcp"⟩], [], [("SERVICE_NAME", "service1")], false⟩,
        ⟨"redis", "cache", "Redis cache", "redis:7-alpine",
          [⟨0, 6379, "tcp"⟩], [⟨"redis_data", "/data", false, "volume"⟩], [], false⟩] }
  | "database" =>
    { id := "", name := "", description := "", category := "", vars := [], tags := [],
      services := [
        ⟨"postgres", "database", "PostgreSQL database", "postgres:15",
          [⟨0, 5432, "tcp"⟩], [⟨"postgres_data", "/var/lib/postgresql/data", false, "volume"⟩],
          [("POSTGRES_DB", "myapp"), ("POSTGRES_USER", "postgres")], false⟩,
        ⟨"mysql", "database", "MySQL database", "mysql:8.0",
          [⟨0, 3306, "tcp"⟩], [⟨"mysql_data", "/var/lib/mysql", false, "volume"⟩],
          [("MYSQL_DATABASE", "myapp"), ("MYSQL_USER", "mysql")], true⟩] }
  | _ =>
    { id := "", name := "", description := "", category := "", vars := [], tags := [],
      services := [] }

/-- Preset-identifier-to-project-type lookup (`getProjectTypeFromPreset`),
with the web-app fallback for unknown identifiers. -/
def getProjectTypeFromPreset (presetID : String) : String :=
  match presetID with
  | "web-app" => "web-app"
  | "microservice" => "microservice"
  | "database" => "database"
  | "ml" => "ml"
  | "infrastructure" => "infrastructure"
  | _ => "web-app"

/-- Conversion of one preset service into a project service
(`CreateProjectFromPreset`, services loop): `optional` inverts to
`enabled`, the environment map is copied, `depends_on` starts empty. -/
def presetServiceToService (ps : PresetService) : ServiceConfig :=
  ⟨ps.name, ps.type, ps.image, ps.ports, ps.volumes, ps.environment, [], !ps.optional⟩

/-- Preset bootstrap (`Manager.CreateProjectFromPreset`).  The catalog
lookup (`templateManager.GetPreset`, backed by an embedded filesystem
outside this core) is passed in as `catalog`; the two `time.Now()` reads
are passed in as `now₁` (for `CreatedAt`) and `now₂` (for `UpdatedAt`), in
evaluation order. -/
def createProjectFromPreset (catalog : String → Option Preset)
    (presetID projectName environment : String) (now₁ now₂ : Nat) :
    Option ProjectConfig :=
  match catalog presetID with
  | none => none
  | some preset =>
    let config : ProjectConfig :=
      { name := projectName
        type := getProjectTypeFromPreset presetID
        description := preset.description
        version := "1.0.0"
        environment := environment
        services := []
        vars := []
        createdAt := now₁
        updatedAt := now₂ }
    let pws := loadPresetTemplateData presetID
    some { config with
           services := pws.services.map presetServiceToService
           vars := preset.vars }

end InfraGen.Presets

namespace InfraGen

/-- An entirely empty project configuration. -/
def c4Config : ProjectConfig := ⟨"", "", "", "", "", [], [], 0, 0⟩

/-- An invalid configuration: empty name and empty service list. -/
def c3Config : ProjectConfig := ⟨"", "web-app", "", "", "", [], [], 0, 0⟩

/-- The validation errors produced for `c3Config`. -/
def c3Errs : List ValidationError :=
  [⟨"name", "project name is required", GoVal.str ""⟩,
   ⟨"services", "at least one service is required", GoVal.int (Int.ofNat 0)⟩]

/-- A configuration whose only volume declaration is a bind mount (kind tag
`"bind"`, not `"volume"`). -/
def bindOnlyConfig : ProjectConfig :=
  ⟨"p", "web-app", "", "", "dev",
   [⟨"app", "web", "img", [], [⟨"data", "/data", false, "bind"⟩], [], [], true⟩],
   [], 0, 0⟩

/-- A configuration with two named-volume declarations sharing the source
name `data`. -/
def dupVolumesConfig : ProjectConfig :=
  ⟨"p", "web-app", "", "", "dev",
   [⟨"db", "database", "img", [], [⟨"data", "/a", false, "volume"⟩], [], [], true⟩,
    ⟨"db2", "database", "img", [], [⟨"data", "/b", false, "volume"⟩], [], [], true⟩],
   [], 0, 0⟩

/-- A valid configuration with one enabled and one disabled service. -/
def c2Config : ProjectConfig :=
  ⟨"p", "web-app", "", "", "",
   [⟨"a", "web", "", [], [], [], [], true⟩, ⟨"b", "db", "", [], [], [], [], false⟩],
   [], 0, 0⟩

/-- A valid configuration with one project variable and one sensitive
service environment entry. -/
def c5Config : ProjectConfig :=
  ⟨"p", "web-app", "", "", "",
   [⟨"db", "database", "", [], [], [("DB_PASSWORD", "x")], [], true⟩],
   [("FOO", "bar")], 0, 0⟩

/-- A configuration with two services both named `db`. -/
def c6Config : ProjectConfig :=
  ⟨"p", "web-app", "", "", "",
   [⟨"db", "database", "", [], [], [], [], true⟩,
    ⟨"db", "database", "", [], [], [], [], true⟩],
   [], 0, 0⟩

/-- A minimal catalog preset used for concrete preset-bootstrap runs. -/
def c8Preset : Preset := ⟨"x", "X", "", "", [], [], []⟩

/-- A catalog collaborator that resolves every identifier to `c8Preset`. -/
def c8Catalog : String → Option Preset := fun _ => some c8Preset

/-- The configuration produced from `c8Catalog` with clock readings 0
and 1. -/
def c8OutConfig : ProjectConfig := ⟨"proj", "web-app", "", "1.0.0", "dev", [], [], 0, 1⟩

/-- The configuration produced from `c8Catalog` with coinciding clock
readings 7 and 7. -/
def c8WitConfig : ProjectConfig := ⟨"p", "web-app", "", "1.0.0", "dev", [], [], 7, 7⟩

/-- Go-value equality of two services: all slice and scalar fields equal,
environment maps equal as key-value collections (permuted association
lists). -/
structure ServiceEquiv (s₁ s₂ : ServiceConfig) : Prop where
  name_eq : s₁.name = s₂.name
  type_eq : s₁.type = s₂.type
  image_eq : s₁.image = s₂.image
  ports_eq : s₁.ports = s₂.ports
  volumes_eq : s₁.volumes = s₂.volumes
  environment_perm : s₁.environment.Perm s₂.environment
  dependsOn_eq : s₁.dependsOn = s₂.dependsOn
  enabled_eq : s₁.enabled = s₂.enabled

/-- Go-value equality of two project configurations: all fields equal,
with the string maps equal as key-value collections; two observations of
the same Go value differ at most by such a permutation of map iteration
order. -/
structure ConfigEquiv (c₁ c₂ : ProjectConfig) : Prop where
  name_eq : c₁.name = c₂.name
  type_eq : c₁.type = c₂.type
  description_eq : c₁.description = c₂.description
  version_eq : c₁.version = c₂.version
  environment_eq : c₁.environment = c₂.environment
  services_rel : List.Forall₂ ServiceEquiv c₁.services c₂.services
  vars_perm : c₁.vars.Perm c₂.vars
  createdAt_eq : c₁.createdAt = c₂.createdAt
  updatedAt_eq : c₁.updatedAt = c₂.updatedAt

/-- Every string map of the configuration has at most one entry, so its
iteration order is forced. -/
def SmallMaps (c : ProjectConfig) : Prop :=
  c.vars.length ≤ 1 ∧ ∀ s ∈ c.services, s.environment.length ≤ 1

/-- A configuration whose single service carries a two-entry environment
map, observed in one iteration order. -/
def c9a : ProjectConfig :=
  ⟨"p", "web-app", "", "", "",
   [⟨"app", "web", "img", [], [], [("A", "1"), ("B", "2")], [], true⟩], [], 0, 0⟩

/-- The same Go value as `c9a`, observed in the other iteration order. -/
def c9b : ProjectConfig :=
  ⟨"p", "web-app", "", "", "",
   [⟨"app", "web", "img", [], [], [("B", "2"), ("A", "1")], [], true⟩], [], 0, 0⟩

/-- A valid configuration all of whose string maps have at most one
entry. -/
def c9w : ProjectConfig :=
  ⟨"p", "web-app", "", "", "",
   [⟨"app", "web", "img", [], [], [("A", "1")], [], true⟩], [("K", "v")], 0, 0⟩

/-- The empty string is a left identity for string append. -/
theorem str_empty_append (s : String) : "" ++ s = s := by cases s; rfl

/-- Appending strings appends their character data. -/
theorem str_data_append (s t : String) : (s ++ t).data = s.data ++ t.data := by
  cases s; cases t; rfl

/-- String append is associative. -/
theorem str_append_assoc (s t u : String) : (s ++ t) ++ u = s ++ (t ++ u) := by
  cases s with | mk a =>
  cases t with | mk b =>
  cases u with | mk c =>
  change String.mk ((a ++ b) ++ c) = String.mk (a ++ (b ++ c))
  rw [List.append_assoc]

/-- A string is empty exactly when its character data is empty. -/
theorem str_eq_empty_iff (s : String) : s = "" ↔ s.data = [] := by
  cases s with | mk d =>
  constructor
  · intro h
    exact congrArg String.data h
  · intro h
    rw [show d = ([] : List Char) from h]

/-- Appending a nonempty string on the left yields a nonempty string. -/
theorem str_append_ne_empty_left (s t : String) (h : s ≠ "") : s ++ t ≠ "" := by
  intro hc
  apply h
  rw [str_eq_empty_iff] at hc ⊢
  rw [str_data_append] at hc
  exact (List.append_eq_nil.mp hc).1

/-- Appending a nonempty string on the right yields a nonempty string. -/
theorem str_append_ne_empty_right (s t : String) (h : t ≠ "") : s ++ t ≠ "" := by
  intro hc
  apply h
  rw [str_eq_empty_iff] at hc ⊢
  rw [str_data_append] at hc
  exact (List.append_eq_nil.mp hc).2

/-- Concatenation distributes over list append. -/
theorem strConcat_append (l₁ l₂ : List String) :
    strConcat (l₁ ++ l₂) = strConcat l₁ ++ strConcat l₂ := by
  induction l₁ with
  | nil => rw [List.nil_append, strConcat, str_empty_append]
  | cons s rest ih => rw [List.cons_append, strConcat, strConcat, ih, str_append_assoc]

/-- Writing either a rendered item or nothing for each element is the same
as rendering the elements that pass the filter. -/
theorem strConcat_ite_filter (p : α → Bool) (f : α → String) (l : List α) :
    strConcat (l.map fun a => if p a then f a else "") =
      strConcat ((l.filter p).map f) := by
  induction l with
  | nil => rfl
  | cons a t ih =>
    by_cases h : p a
    · simp only [List.map_cons, List.filter_cons, h, if_true, strConcat, ih]
    · simp only [List.map_cons, List.filter_cons, h, if_false, strConcat,
        str_empty_append, ih, Bool.false_eq_true]

/-- Writing either a rendered item or nothing, for a decidable predicate. -/
theorem strConcat_ite_filter_prop (p : α → Prop) [DecidablePred p] (f : α → String) (l : List α) :
    strConcat (l.map fun a => if p a then f a else "") =
      strConcat ((l.filter fun a => decide (p a)).map f) := by
  induction l with
  | nil => rfl
  | cons a t ih =>
    by_cases h : p a
    · simp only [List.map_cons, List.filter_cons, h, if_true, decide_True, strConcat, ih]
    · simp only [List.map_cons, List.filter_cons, h, if_false, decide_False, strConcat,
        str_empty_append, ih, Bool.false_eq_true]

/-- The `hasVolumes` scan is false exactly when no service declares any
volume. -/
theorem hasVolumes_false_iff (services : List ServiceConfig) :
    Docker.hasVolumes services = false ↔ ∀ s ∈ services, s.volumes = [] := by
  simp [Docker.hasVolumes, List.any_eq_false, List.length_eq_zero]

/-- The named-volume entries are exactly one line per volume declaration
with kind tag `"volume"`, across all services in order, duplicates kept. -/
theorem namedVolumeEntries_eq (services : List ServiceConfig) :
    Docker.namedVolumeEntries services =
      strConcat ((((services.flatMap fun s => s.volumes).filter
        fun v => decide (v.type = "volume"))).map fun v => "  " ++ v.source ++ ":\n") := by
  induction services with
  | nil => rfl
  | cons s rest ih =>
    simp only [Docker.namedVolumeEntries, List.map_cons, strConcat] at ih ⊢
    rw [ih, List.flatMap_cons, List.filter_append, List.map_append, strConcat_append,
      strConcat_ite_filter_prop (fun v : VolumeConfig => v.type = "volume")
        (fun v => "  " ++ v.source ++ ":\n") s.volumes]

/-- The docker and ansible per-service validation loops compute the same
errors. -/
theorem serviceErrors_eq_aux :
    ∀ (l : List ServiceConfig) (i : Nat), Docker.serviceErrors i l = Ansible.serviceErrors i l := by
  intro l
  induction l with
  | nil => intro i; rfl
  | cons s rest ih =>
    intro i
    rw [Docker.serviceErrors, Ansible.serviceErrors, ih]

/-- The docker and ansible `Validate` operations compute the same result. -/
theorem validates_agree_aux (config : ProjectConfig) :
    Docker.Validate config = Ansible.Validate config := by
  unfold Docker.Validate Ansible.Validate
  rw [serviceErrors_eq_aux]

/-- Permutations of lists with at most one element are equalities. -/
theorem perm_eq_of_length_le_one {α : Type _} {l₁ l₂ : List α}
    (h : l₁.Perm l₂) (hl : l₁.length ≤ 1) : l₁ = l₂ := by
  cases l₁ with
  | nil =>
    have hlen := h.length_eq
    cases l₂ with
    | nil => rfl
    | cons b t => simp at hlen
  | cons a t =>
    cases t with
    | cons x y => simp at hl
    | nil =>
      have hlen := h.length_eq
      cases l₂ with
      | nil => simp at hlen
      | cons b u =>
        cases u with
        | cons p q => simp at hlen
        | nil =>
          have hab : a = b := by
            simpa using h.mem_iff.mp (List.mem_cons_self a [])
          rw [hab]

/-- The docker per-service validation loop only reads names and types, so
it is invariant under `ServiceEquiv`. -/
theorem dockerServiceErrors_congr {l₁ l₂ : List ServiceConfig}
    (h : List.Forall₂ ServiceEquiv l₁ l₂) :
    ∀ i, Docker.serviceErrors i l₁ = Docker.serviceErrors i l₂ := by
  induction h with
  | nil => intro i; rfl
  | cons hs ht ih =>
    intro i
    rw [Docker.serviceErrors, Docker.serviceErrors, hs.name_eq, hs.type_eq, ih (i + 1)]

/-- Docker validation is invariant under map iteration order: it never
reads the string maps. -/
theorem docker_validate_congr {c₁ c₂ : ProjectConfig} (h : ConfigEquiv c₁ c₂) :
    Docker.Validate c₁ = Docker.Validate c₂ := by
  simp only [Docker.Validate]
  rw [h.name_eq, h.services_rel.length_eq, dockerServiceErrors_congr h.services_rel 0]

/-- Ansible validation is invariant under map iteration order. -/
theorem ansible_validate_congr {c₁ c₂ : ProjectConfig} (h : ConfigEquiv c₁ c₂) :
    Ansible.Validate c₁ = Ansible.Validate c₂ := by
  rw [← validates_agree_aux, ← validates_agree_aux, docker_validate_congr h]

/-- Equivalent services with a forced environment order are equal. -/
theorem service_eq_of_equiv_small {s₁ s₂ : ServiceConfig} (h : ServiceEquiv s₁ s₂)
    (hl : s₁.environment.length ≤ 1) : s₁ = s₂ := by
  obtain ⟨h1, h2, h3, h4, h5, h6, h7, h8⟩ := h
  have henv := perm_eq_of_length_le_one h6 hl
  cases s₁
  cases s₂
  simp_all

/-- Pointwise equivalent service lists with forced environment orders are
equal. -/
theorem services_eq_of_equiv_small {l₁ l₂ : List ServiceConfig}
    (h : List.Forall₂ ServiceEquiv l₁ l₂) :
    (∀ s ∈ l₁, s.environment.length ≤ 1) → l₁ = l₂ := by
  induction h with
  | nil => intro _; rfl
  | cons hs ht ih =>
    intro hsmall
    rw [service_eq_of_equiv_small hs (hsmall _ (List.mem_cons_self _ _)),
      ih fun s hs' => hsmall s (List.mem_cons_of_mem _ hs')]

/-- Equivalent configurations whose maps have forced iteration order are
equal. -/
theorem config_eq_of_equiv_small {c₁ c₂ : ProjectConfig} (h : ConfigEquiv c₁ c₂)
    (hsm : SmallMaps c₁) : c₁ = c₂ := by
  obtain ⟨h1, h2, h3, h4, h5, h6, h7, h8, h9⟩ := h
  have hs := services_eq_of_equiv_small h6 hsm.2
  have hv := perm_eq_of_length_le_one h7 hsm.1
  cases c₁
  cases c₂
  simp_all

/-- If a name was already seen and recurs in the remaining services, the
duplicate scan reports it. -/
theorem dup_mem_of_seen (l : List ServiceConfig) :
    ∀ (seen : List String) (nm : String), seen.contains nm = true →
      (∃ s ∈ l, s.name = nm) →
      ∃ e ∈ Presets.dupErrors seen l, e.message = "duplicate service name: " ++ nm := by
  induction l with
  | nil =>
    intro seen nm _ hex
    simp at hex
  | cons s rest ih =>
    intro seen nm hseen hex
    rw [Presets.dupErrors]
    obtain ⟨t, ht, hnm⟩ := hex
    rcases List.mem_cons.mp ht with hhead | htail
    · subst hhead
      rw [hnm, hseen, if_pos rfl]
      exact ⟨_, List.mem_cons_self _ _, rfl⟩
    · have hseen' : (s.name :: seen).contains nm = true := by
        simp only [List.contains_cons, hseen, Bool.or_true]
      obtain ⟨e, he, hmsg⟩ := ih (s.name :: seen) nm hseen' ⟨t, htail, hnm⟩
      exact ⟨e, List.mem_append_right _ he, hmsg⟩

/-- Any two positions carrying the same service name make the duplicate
scan report that name, whatever was seen before. -/
theorem dup_mem_split (l₁ : List ServiceConfig) :
    ∀ (seen : List String) (s₁ : ServiceConfig) (l₂ : List ServiceConfig)
      (s₂ : ServiceConfig) (l₃ : List ServiceConfig), s₁.name = s₂.name →
      ∃ e ∈ Presets.dupErrors seen (l₁ ++ s₁ :: (l₂ ++ s₂ :: l₃)),
        e.message = "duplicate service name: " ++ s₂.name := by
  induction l₁ with
  | nil =>
    intro seen s₁ l₂ s₂ l₃ hname
    rw [List.nil_append, Presets.dupErrors]
    have hseen : (s₁.name :: seen).contains s₂.name = true := by
      simp only [List.contains_cons]
      rw [← hname]
      simp
    obtain ⟨e, he, hmsg⟩ := dup_mem_of_seen (l₂ ++ s₂ :: l₃) (s₁.name :: seen) s₂.name hseen
      ⟨s₂, List.mem_append_right _ (List.mem_cons_self _ _), rfl⟩
    exact ⟨e, List.mem_append_right _ he, hmsg⟩
  | cons t rest ih =>
    intro seen s₁ l₂ s₂ l₃ hname
    rw [List.cons_append, Presets.dupErrors]
    obtain ⟨e, he, hmsg⟩ := ih (t.name :: seen) s₁ l₂ s₂ l₃ hname
    exact ⟨e, List.mem_append_right _ he, hmsg⟩

/-- The service-type scan is true exactly when some service's lowercased
type contains one of the lowercased patterns. -/
theorem hasServiceType_eq_true_iff (services : List ServiceConfig) (ts : List String) :
    Ansible.hasServiceType services ts = true ↔
      ∃ s ∈ services, ∃ t ∈ ts, containsSubstr (strToLower s.type) (strToLower t) = true := by
  simp [Ansible.hasServiceType, List.any_eq_true]

/-- The webservers group is present exactly when the web scan fires. -/
theorem webservers_mem_iff (config : ProjectConfig) :
    (∃ g, ("webservers", g) ∈ Ansible.generateInventoryChildren config) ↔
      Ansible.hasServiceType config.services ["web", "frontend", "nginx"] = true := by
  rw [Ansible.generateInventoryChildren]
  cases hw : Ansible.hasServiceType config.services ["web", "frontend", "nginx"] with
  | true =>
    cases hd : Ansible.hasServiceType config.services ["database", "postgres", "mysql", "mongo"] <;>
      simp
  | false =>
    cases hd : Ansible.hasServiceType config.services ["database", "postgres", "mysql", "mongo"] <;>
      simp

/-- The databases group is present exactly when the database scan fires. -/
theorem databases_mem_iff (config : ProjectConfig) :
    (∃ g, ("databases", g) ∈ Ansible.generateInventoryChildren config) ↔
      Ansible.hasServiceType config.services ["database", "postgres", "mysql", "mongo"] = true := by
  rw [Ansible.generateInventoryChildren]
  cases hw : Ansible.hasServiceType config.services ["web", "frontend", "nginx"] with
  | true =>
    cases hd : Ansible.hasServiceType config.services ["database", "postgres", "mysql", "mongo"] <;>
      simp
  | false =>
    cases hd : Ansible.hasServiceType config.services ["database", "postgres", "mysql", "mongo"] <;>
      simp

/-- The web scan spelled out over the three patterns. -/
theorem webservers_cond_iff (config : ProjectConfig) :
    Ansible.hasServiceType config.services ["web", "frontend", "nginx"] = true ↔
      ∃ s ∈ config.services,
        (containsSubstr (strToLower s.type) "web" = true ∨
         containsSubstr (strToLower s.type) "frontend" = true ∨
         containsSubstr (strToLower s.type) "nginx" = true) := by
  rw [hasServiceType_eq_true_iff]
  simp [show strToLower "web" = "web" from by decide,
    show strToLower "frontend" = "frontend" from by decide,
    show strToLower "nginx" = "nginx" from by decide]

/-- The database scan spelled out over the four patterns. -/
theorem databases_cond_iff (config : ProjectConfig) :
    Ansible.hasServiceType config.services ["database", "postgres", "mysql", "mongo"] = true ↔
      ∃ s ∈ config.services,
        (containsSubstr (strToLower s.type) "database" = true ∨
         containsSubstr (strToLower s.type) "postgres" = true ∨
         containsSubstr (strToLower s.type) "mysql" = true ∨
         containsSubstr (strToLower s.type) "mongo" = true) := by
  rw [hasServiceType_eq_true_iff]
  simp [show strToLower "database" = "database" from by decide,
    show strToLower "postgres" = "postgres" from by decide,
    show strToLower "mysql" = "mysql" from by decide,
    show strToLower "mongo" = "mongo" from by decide]

/-- C1 counterexample: on `bindOnlyConfig` the renderer emits the top-level
`volumes:` section although no volume declaration has kind tag `"volume"`,
so the claimed equivalence fails. -/
theorem named_volumes_claim_counterexample :
    ¬ ((Docker.volumesSection bindOnlyConfig.services ≠ "") ↔
       ∃ s ∈ bindOnlyConfig.services, ∃ v ∈ s.volumes, v.type = "volume") := by
  decide

/-- C1 amended: the top-level `volumes:` section is emitted iff at least one
service declares at least one volume of any kind; when emitted, it contains
one entry per volume declaration whose kind tag equals `"volume"`, with
repeated source names repeated rather than deduplicated. -/
theorem named_volumes_section_amended (config : ProjectConfig) :
    (Docker.volumesSection config.services = "" ↔ ∀ s ∈ config.services, s.volumes = []) ∧
    (Docker.volumesSection config.services ≠ "" →
      Docker.volumesSection config.services =
        "volumes:\n" ++ strConcat ((((config.services.flatMap fun s => s.volumes).filter
          fun v => v.type = "volume")).map fun v => "  " ++ v.source ++ ":\n")) := by
  constructor
  · rw [Docker.volumesSection]
    cases hcase : Docker.hasVolumes config.services with
    | false =>
      rw [if_neg (by simp)]
      exact iff_of_true rfl ((hasVolumes_false_iff config.services).mp hcase)
    | true =>
      rw [if_pos rfl]
      refine iff_of_false (str_append_ne_empty_left _ _ (by decide)) ?_
      intro hall
      rw [(hasVolumes_false_iff config.services).mpr hall] at hcase
      exact absurd hcase Bool.false_ne_true
  · intro hne
    rw [Docker.volumesSection] at hne ⊢
    cases hcase : Docker.hasVolumes config.services with
    | false =>
      simp only [hcase, Bool.false_eq_true, if_false, ne_eq, not_true_eq_false] at hne
    | true =>
      rw [if_pos rfl]
      rw [namedVolumeEntries_eq]

/-- C1 witness: the amended statement evaluated on a configuration with a
repeated named-volume source, showing the section present and the repeated
entries kept. -/
theorem named_volumes_section_amended_witness :
    Docker.volumesSection dupVolumesConfig.services ≠ "" ∧
    Docker.volumesSection dupVolumesConfig.services =
      "volumes:\n" ++ strConcat ((((dupVolumesConfig.services.flatMap fun s => s.volumes).filter
        fun v => v.type = "volume")).map fun v => "  " ++ v.source ++ ":\n") :=
  ⟨by decide, (named_volumes_section_amended dupVolumesConfig).2 (by decide)⟩

/-- C2: on a valid configuration, the compose document emitted by Generate
consists of exactly one block per enabled service, in input order, with no
block for disabled services, followed by the volumes section. -/
theorem compose_blocks_enabled_in_order (config : ProjectConfig)
    (h : Docker.Validate config = none) :
    ∃ files, Docker.Generate config = Except.ok files ∧
      ∃ f ∈ files, f.path = "docker-compose.yml" ∧
        f.content = "services:\n"
          ++ strConcat ((config.services.filter fun s => s.enabled).map Docker.serviceBlock)
          ++ Docker.volumesSection config.services := by
  have hsv : Docker.servicesSection config.services =
      strConcat ((config.services.filter fun s => s.enabled).map Docker.serviceBlock) := by
    rw [Docker.servicesSection]
    exact strConcat_ite_filter (fun s => s.enabled) Docker.serviceBlock config.services
  by_cases hE : Docker.generateEnvFile config = ""
  · refine ⟨[⟨"docker-compose.yml", Docker.generateComposeYAML config, Target.docker, "utf-8"⟩],
      ?_, ?_⟩
    · simp [Docker.Generate, h, hE]
    · refine ⟨_, List.mem_cons_self _ _, rfl, ?_⟩
      show Docker.generateComposeYAML config = _
      rw [Docker.generateComposeYAML, hsv]
  · refine ⟨[⟨"docker-compose.yml", Docker.generateComposeYAML config, Target.docker, "utf-8"⟩,
      ⟨".env", Docker.generateEnvFile config, Target.docker, "utf-8"⟩], ?_, ?_⟩
    · simp [Docker.Generate, h, hE]
    · refine ⟨_, List.mem_cons_self _ _, rfl, ?_⟩
      show Docker.generateComposeYAML config = _
      rw [Docker.generateComposeYAML, hsv]

/-- C2 witness: the block theorem applied to the concrete configuration. -/
theorem compose_blocks_enabled_in_order_witness :
    ∃ files, Docker.Generate c2Config = Except.ok files ∧
      ∃ f ∈ files, f.path = "docker-compose.yml" ∧
        f.content = "services:\n"
          ++ strConcat ((c2Config.services.filter fun s => s.enabled).map Docker.serviceBlock)
          ++ Docker.volumesSection c2Config.services :=
  compose_blocks_enabled_in_order c2Config (by decide)

/-- C3: when Validate fails, Generate (both the Docker and the Ansible
generator) surfaces exactly that validation error and produces no files. -/
theorem generate_propagates_validation_failure (config : ProjectConfig)
    (e : List ValidationError) :
    (Docker.Validate config = some e → Docker.Generate config = Except.error e) ∧
    (Ansible.Validate config = some e → Ansible.Generate config = Except.error e) := by
  constructor
  · intro h
    simp [Docker.Generate, h]
  · intro h
    simp [Ansible.Generate, h]

/-- C3 witness: the propagation theorem applied to a concrete invalid
configuration. -/
theorem generate_propagates_validation_failure_witness :
    Docker.Generate c3Config = Except.error c3Errs ∧
      Ansible.Generate c3Config = Except.error c3Errs :=
  ⟨(generate_propagates_validation_failure c3Config c3Errs).1 (by decide),
   (generate_propagates_validation_failure c3Config c3Errs).2 (by decide)⟩


/-- C4: on a configuration with an empty name and no services, the
generator's Validate accumulates and returns at least two distinct entries,
one for the `name` field and one for the `services` field. -/
theorem validate_accumulates_empty_config (config : ProjectConfig)
    (h₁ : config.name = "") (h₂ : config.services = []) :
    ∃ errs, Docker.Validate config = some errs ∧ 2 ≤ errs.length ∧
      (∃ e ∈ errs, e.field = "name") ∧ (∃ e ∈ errs, e.field = "services") := by
  have hv : Docker.Validate config = some
      [⟨"name", "project name is required", GoVal.str ""⟩,
       ⟨"services", "at least one service is required", GoVal.int (Int.ofNat 0)⟩] := by
    simp [Docker.Validate, h₁, h₂, Docker.serviceErrors]
  refine ⟨_, hv, ?_, ?_, ?_⟩
  · simp
  · exact ⟨_, List.mem_cons_self _ _, rfl⟩
  · exact ⟨_, List.mem_cons_of_mem _ (List.mem_cons_self _ _), rfl⟩

/-- C4 witness: the accumulation theorem applied to the concrete empty
configuration. -/
theorem validate_accumulates_empty_config_witness :
    ∃ errs, Docker.Validate c4Config = some errs ∧ 2 ≤ errs.length ∧
      (∃ e ∈ errs, e.field = "name") ∧ (∃ e ∈ errs, e.field = "services") :=
  validate_accumulates_empty_config c4Config rfl rfl

/-- C5: on a valid configuration, the emitted file list has a `.env` record
exactly when some variable qualifies, and its content is exactly the
project-level lines followed by the renamed sensitive service lines. -/
theorem env_file_exactness (config : ProjectConfig)
    (h : Docker.Validate config = none) :
    ∃ files, Docker.Generate config = Except.ok files ∧
      (Docker.envVars config = [] → ∀ f ∈ files, f.path ≠ ".env") ∧
      (Docker.envVars config ≠ [] → ∃ f ∈ files, f.path = ".env" ∧
        f.content = strJoinSep "\n" (Docker.envVars config) ++ "\n") := by
  by_cases hE : Docker.envVars config = []
  · have hfile : Docker.generateEnvFile config = "" := by
      rw [Docker.generateEnvFile, hE]
      simp
    refine ⟨[⟨"docker-compose.yml", Docker.generateComposeYAML config, Target.docker, "utf-8"⟩],
      ?_, ?_, ?_⟩
    · simp [Docker.Generate, h, hfile]
    · intro _ f hf
      simp only [List.mem_singleton] at hf
      rw [hf]
      show ("docker-compose.yml" : String) ≠ ".env"
      decide
    · intro hc
      exact absurd hE hc
  · have hlen : ¬ (Docker.envVars config).length = 0 := by
      simpa [List.length_eq_zero] using hE
    have hfile : Docker.generateEnvFile config =
        strJoinSep "\n" (Docker.envVars config) ++ "\n" := by
      rw [Docker.generateEnvFile, if_neg hlen]
    have hne : Docker.generateEnvFile config ≠ "" := by
      rw [hfile]
      exact str_append_ne_empty_right _ _ (by decide)
    refine ⟨[⟨"docker-compose.yml", Docker.generateComposeYAML config, Target.docker, "utf-8"⟩,
      ⟨".env", Docker.generateEnvFile config, Target.docker, "utf-8"⟩], ?_, ?_, ?_⟩
    · simp [Docker.Generate, h, hne]
    · intro hc
      exact absurd hc hE
    · intro _
      exact ⟨_, List.mem_cons_of_mem _ (List.mem_cons_self _ _), rfl, hfile⟩

/-- C5 witness: the environment-file theorem applied to the concrete
configuration. -/
theorem env_file_exactness_witness :
    ∃ files, Docker.Generate c5Config = Except.ok files ∧
      (Docker.envVars c5Config = [] → ∀ f ∈ files, f.path ≠ ".env") ∧
      (Docker.envVars c5Config ≠ [] → ∃ f ∈ files, f.path = ".env" ∧
        f.content = strJoinSep "\n" (Docker.envVars c5Config) ++ "\n") :=
  env_file_exactness c5Config (by decide)

/-- C6: whole-project validation on a configuration whose service list
contains two entries with the same name fails, returning an error whose
message references the duplicated name. -/
theorem validate_project_duplicate_names (config : ProjectConfig)
    (l₁ : List ServiceConfig) (s₁ : ServiceConfig) (l₂ : List ServiceConfig)
    (s₂ : ServiceConfig) (l₃ : List ServiceConfig)
    (hsplit : config.services = l₁ ++ s₁ :: (l₂ ++ s₂ :: l₃))
    (hname : s₁.name = s₂.name) :
    ∃ errs, Presets.validateProject config = some errs ∧
      ∃ e ∈ errs, e.message = "duplicate service name: " ++ s₂.name := by
  obtain ⟨e, he, hmsg⟩ :=
    dup_mem_split l₁ [] s₁ l₂ s₂ l₃ hname
  rw [← hsplit] at he
  have hmem : e ∈
      (if config.name = "" then
        [⟨"name", "project name is required", GoVal.str config.name⟩]
       else [])
      ++ (if config.type = "" then
        [⟨"type", "project type is required", GoVal.str config.type⟩]
       else [])
      ++ (if config.services.length = 0 then
        [⟨"services", "at least one service is required", GoVal.int (Int.ofNat config.services.length)⟩]
       else [])
      ++ Presets.serviceErrors 0 config.services
      ++ Presets.dupErrors [] config.services :=
    List.mem_append_right _ he
  have hiso : ¬ ((if config.name = "" then
        [⟨"name", "project name is required", GoVal.str config.name⟩]
       else [])
      ++ (if config.type = "" then
        [⟨"type", "project type is required", GoVal.str config.type⟩]
       else [])
      ++ (if config.services.length = 0 then
        [⟨"services", "at least one service is required", GoVal.int (Int.ofNat config.services.length)⟩]
       else [])
      ++ Presets.serviceErrors 0 config.services
      ++ Presets.dupErrors [] config.services : List ValidationError).isEmpty = true := by
    rw [List.isEmpty_iff]
    exact List.ne_nil_of_mem hmem
  refine ⟨_, ?_, e, hmem, hmsg⟩
  simp only [Presets.validateProject]
  rw [if_neg hiso]

/-- C6 witness: the duplicate-name theorem applied to the concrete
configuration with two `db` services. -/
theorem validate_project_duplicate_names_witness :
    ∃ errs, Presets.validateProject c6Config = some errs ∧
      ∃ e ∈ errs, e.message =
        "duplicate service name: " ++ (⟨"db", "database", "", [], [], [], [], true⟩ : ServiceConfig).name :=
  validate_project_duplicate_names c6Config [] ⟨"db", "database", "", [], [], [], [], true⟩ []
    ⟨"db", "database", "", [], [], [], [], true⟩ [] rfl rfl

/-- C7: the inventory contains a `webservers` child group iff some service
type case-insensitively contains `web`, `frontend` or `nginx`, and a
`databases` child group iff some service type case-insensitively contains
`database`, `postgres`, `mysql` or `mongo`; with neither condition, neither
group is present. -/
theorem inventory_child_groups_iff (config : ProjectConfig) :
    ((∃ g, ("webservers", g) ∈ Ansible.generateInventoryChildren config) ↔
      ∃ s ∈ config.services,
        (containsSubstr (strToLower s.type) "web" = true ∨
         containsSubstr (strToLower s.type) "frontend" = true ∨
         containsSubstr (strToLower s.type) "nginx" = true)) ∧
    ((∃ g, ("databases", g) ∈ Ansible.generateInventoryChildren config) ↔
      ∃ s ∈ config.services,
        (containsSubstr (strToLower s.type) "database" = true ∨
         containsSubstr (strToLower s.type) "postgres" = true ∨
         containsSubstr (strToLower s.type) "mysql" = true ∨
         containsSubstr (strToLower s.type) "mongo" = true)) :=
  ⟨(webservers_mem_iff config).trans (webservers_cond_iff config),
   (databases_mem_iff config).trans (databases_cond_iff config)⟩

/-- C8 counterexample: a successful bootstrap whose two `time.Now()` reads
differ yields `CreatedAt` different from `UpdatedAt`, refuting the claimed
equality for every successful call. -/
theorem create_project_timestamps_counterexample :
    Presets.createProjectFromPreset c8Catalog "x" "proj" "dev" 0 1 = some c8OutConfig ∧
      c8OutConfig.createdAt ≠ c8OutConfig.updatedAt := by
  constructor
  · decide
  · decide

/-- C8 amended: a successful bootstrap stamps `CreatedAt` from the first
clock read and `UpdatedAt` from the second; the two are equal exactly when
the two reads coincide. -/
theorem create_project_timestamps_amended (catalog : String → Option Preset)
    (presetID projectName environment : String) (t₁ t₂ : Nat) (cfg : ProjectConfig)
    (h : Presets.createProjectFromPreset catalog presetID projectName environment t₁ t₂ =
      some cfg) :
    cfg.createdAt = t₁ ∧ cfg.updatedAt = t₂ ∧ (t₁ = t₂ → cfg.createdAt = cfg.updatedAt) := by
  cases hc : catalog presetID with
  | none =>
    rw [Presets.createProjectFromPreset, hc] at h
    exact absurd h (by simp)
  | some p =>
    rw [Presets.createProjectFromPreset, hc] at h
    have h' := Option.some.inj h
    subst h'
    exact ⟨rfl, rfl, fun he => he⟩

/-- C8 witness: the amended statement evaluated at coinciding clock
readings. -/
theorem create_project_timestamps_amended_witness :
    c8WitConfig.createdAt = 7 ∧ c8WitConfig.updatedAt = 7 ∧
      ((7 : Nat) = 7 → c8WitConfig.createdAt = c8WitConfig.updatedAt) :=
  create_project_timestamps_amended c8Catalog "x" "p" "dev" 7 7 c8WitConfig (by decide)

/-- C9 counterexample: equal Go inputs (the same maps enumerated in two
admissible iteration orders) produce different compose bytes, refuting
byte-identical output of Generate on equal inputs. -/
theorem generate_map_order_counterexample :
    ConfigEquiv c9a c9b ∧ (Docker.Generate c9a).toOption ≠ (Docker.Generate c9b).toOption := by
  constructor
  · exact ⟨rfl, rfl, rfl, rfl, rfl,
      List.Forall₂.cons ⟨rfl, rfl, rfl, rfl, rfl, by decide, rfl, rfl⟩ List.Forall₂.nil,
      List.Perm.refl _, rfl, rfl⟩
  · decide

/-- C9 amended: both Validate operations are pure deterministic functions
of the Go input value (invariant under map iteration order), and the Docker
generator's Generate — which ranges only over the input string maps — is
byte-identical across invocations whenever every such map has at most one
entry.  No byte-determinism is asserted for the Ansible generator: its
playbook additionally ranges over the internal `generateVars` map (four
derived entries per service) in unspecified order. -/
theorem generate_deterministic_amended (c₁ c₂ : ProjectConfig) (h : ConfigEquiv c₁ c₂) :
    (Docker.Validate c₁ = Docker.Validate c₂ ∧ Ansible.Validate c₁ = Ansible.Validate c₂) ∧
    (SmallMaps c₁ → Docker.Generate c₁ = Docker.Generate c₂) := by
  refine ⟨⟨docker_validate_congr h, ansible_validate_congr h⟩, fun hsm => ?_⟩
  rw [config_eq_of_equiv_small h hsm]

/-- C9 witness: the amended determinism statement evaluated at a concrete
configuration with forced map iteration order. -/
theorem generate_deterministic_amended_witness :
    Docker.Validate c9w = Docker.Validate c9w ∧ Ansible.Validate c9w = Ansible.Validate c9w ∧
      Docker.Generate c9w = Docker.Generate c9w :=
  have he : ConfigEquiv c9w c9w :=
    ⟨rfl, rfl, rfl, rfl, rfl,
     List.Forall₂.cons ⟨rfl, rfl, rfl, rfl, rfl, List.Perm.refl _, rfl, rfl⟩ List.Forall₂.nil,
     List.Perm.refl _, rfl, rfl⟩
  ⟨(generate_deterministic_amended c9w c9w he).1.1,
   (generate_deterministic_amended c9w c9w he).1.2,
   (generate_deterministic_amended c9w c9w he).2 ⟨by decide, by decide⟩⟩

/-- C10: the Docker generator's Validate and the Ansible generator's
Validate are extensionally equal: on every ProjectConfig they return the
same outcome, with the same errors in the same order. -/
theorem docker_ansible_validate_equal (config : ProjectConfig) :
    Docker.Validate config = Ansible.Validate config :=
  validates_agree_aux config

end InfraGen
